import Mathlib

/-
Verification development for MonteCarlo_Assignments/TempMCCalc/temperatureCalculator.py.

The walk-on-spheres temperature estimator is shallowly embedded over the reals.
Floating-point numbers are modelled as real numbers.  The source of randomness
(`np.random.rand()`, one draw per loop iteration) and the asynchronous
`KeyboardInterrupt` are modelled as an explicit event stream consumed one event
per iteration of the `while` loop of `get_poi_temp`: a `rand u` event supplies
the value `u` of `np.random.rand()` for that iteration, and an `interrupt`
event makes that iteration raise `KeyboardInterrupt` (which the source catches,
clearing its state and returning `None`).  A `while` loop whose event stream
runs out is a run that is still going; the model reports it as `running`.
-/

/-- Tolerance below which a coordinate counts as touching a wall
(source constant `WALL_EPSILON = 0.05`). -/
noncomputable def WALL_EPSILON : ℝ := 0.05

/-- Number of completed walks collected per query point
(source constant `DICE_ROLLS_PER_DOT = 10**3`). -/
def DICE_ROLLS_PER_DOT : ℕ := 10 ^ 3

/-- Fields of a `TemperatureProblem` object.  The source also stores the unused
field `CalculatedPOIArray` (assigned `None` in `__init__` and never read
afterwards); it is omitted.  `xPOI`/`yPOI` are `None` until `get_poi_temp`
assigns them, hence `Option ℝ`. -/
structure TemperatureProblem where
  xDim : ℝ
  yDim : ℝ
  borderTemps : List ℝ
  xPOI : Option ℝ
  yPOI : Option ℝ
  CurrentPointArray : List ℝ

namespace TemperatureProblem

/-- `TemperatureProblem.__init__(xdim, ydim, temp)`: stores the three arguments
unchecked and clears the POI and the sample accumulator. -/
def init (xdim ydim : ℝ) (temp : List ℝ) : TemperatureProblem :=
  { xDim := xdim, yDim := ydim, borderTemps := temp,
    xPOI := none, yPOI := none, CurrentPointArray := [] }

/-- Property `poi_is_inside` of the source:
`True if 0 <= self.xPOI <= self.xDim or 0 <= self.yPOI <= self.yDim else False`.
Note the source joins the x-range check and the y-range check with `or`.
The property reads `self.xPOI`/`self.yPOI`; `get_poi_temp` always assigns both
before evaluating it (comparing `None` would raise in Python, modelled as
`False`). -/
def poi_is_inside (tp : TemperatureProblem) : Prop :=
  match tp.xPOI, tp.yPOI with
  | some x, some y => (0 ≤ x ∧ x ≤ tp.xDim) ∨ (0 ≤ y ∧ y ≤ tp.yDim)
  | _, _ => False

/-- Method `point_is_next_to_wall(x, y)`: the four wall checks in source order
with their early returns, `None` when no check matches. -/
noncomputable def point_is_next_to_wall (tp : TemperatureProblem) (x y : ℝ) :
    Option ℕ :=
  if x ≤ WALL_EPSILON then some 2
  else if y ≤ WALL_EPSILON then some 0
  else if tp.xDim - x ≤ WALL_EPSILON then some 1
  else if tp.yDim - y ≤ WALL_EPSILON then some 3
  else none

/-- Method `get_circle_and_rnd_point(x_pr, y_pr)`.  The radius is
`min(self.xDim - x_pr, self.yDim - y_pr, x_pr, y_pr)` (Python's variadic `min`
folds from the left); the angle is `np.random.rand() * 2 * np.pi` where the
draw `u` of `np.random.rand()` is the explicit argument here. -/
noncomputable def get_circle_and_rnd_point (tp : TemperatureProblem)
    (x_pr y_pr u : ℝ) : ℝ × ℝ :=
  let cir_rad := min (min (min (tp.xDim - x_pr) (tp.yDim - y_pr)) x_pr) y_pr
  let angle := u * 2 * Real.pi
  (x_pr + cir_rad * Real.cos angle, y_pr + cir_rad * Real.sin angle)

/-- The step radius of `get_circle_and_rnd_point`, as a standalone function
(the `cir_rad` local of the source). -/
noncomputable def stepRadius (tp : TemperatureProblem) (x y : ℝ) : ℝ :=
  min (min (min (tp.xDim - x) (tp.yDim - y)) x) y

end TemperatureProblem

/-- One iteration's worth of external input to the `while` loop of
`get_poi_temp`: either the value of this iteration's `np.random.rand()` draw,
or a `KeyboardInterrupt` arriving during this iteration. -/
inductive WalkEvent where
  | rand (u : ℝ)
  | interrupt

/-- Outcome of the `while` loop of `get_poi_temp`: the loop condition became
false (`done` with the final sample list), a `KeyboardInterrupt` was caught
(`interrupted`), or the event stream was exhausted with the loop still going
(`running`, a model artifact standing for a loop that has not returned yet). -/
inductive LoopOutcome where
  | done (samples : List ℝ)
  | interrupted
  | running

namespace TemperatureProblem

/-- The `while len(self.CurrentPointArray) < DICE_ROLLS_PER_DOT` loop of
`get_poi_temp`.  `poix`/`poiy` are the values of `self.xPOI`/`self.yPOI` read
back by the wall-hit reset `curr_x, curr_y = self.xPOI, self.yPOI`;
`cx`/`cy` are `curr_x`/`curr_y`; `arr` is `self.CurrentPointArray`.  On a wall
hit the wall's temperature `self.borderTemps[wall]` is appended (all runs
considered by the claims use length-4 temperature lists, where `List.getD`
agrees with Python's indexing). -/
noncomputable def runLoop (tp : TemperatureProblem) (poix poiy : ℝ)
    (evs : List WalkEvent) (cx cy : ℝ) (arr : List ℝ) : LoopOutcome :=
  if DICE_ROLLS_PER_DOT ≤ arr.length then .done arr
  else
    match evs with
    | [] => .running
    | .interrupt :: _ => .interrupted
    | .rand u :: rest =>
      match tp.point_is_next_to_wall (tp.get_circle_and_rnd_point cx cy u).1
          (tp.get_circle_and_rnd_point cx cy u).2 with
      | some wall =>
          runLoop tp poix poiy rest poix poiy (arr ++ [tp.borderTemps.getD wall 0])
      | none =>
          runLoop tp poix poiy rest (tp.get_circle_and_rnd_point cx cy u).1
            (tp.get_circle_and_rnd_point cx cy u).2 arr

/-- `np.mean` of a list of reals: sum divided by length. -/
noncomputable def listMean (l : List ℝ) : ℝ := l.sum / (l.length : ℝ)

end TemperatureProblem

/-- Result of a call to `get_poi_temp`: normal return of the mean temperature
(`ok`, with the object state after the call), return of `None` after a caught
`KeyboardInterrupt` (`cancelled`, with the object state after the call), the
raised `Exception("POI must be inside initial rectangle!")` (`invalidPOI`,
with the object state at the raise), or a loop still going when the event
stream ran out (`running`). -/
inductive PoiResult where
  | ok (t : ℝ) (st : TemperatureProblem)
  | cancelled (st : TemperatureProblem)
  | invalidPOI (st : TemperatureProblem)
  | running

namespace TemperatureProblem

section
open Classical

/-- Method `get_poi_temp(x, y)` driven by the event stream `evs`.  It assigns
`self.xPOI, self.yPOI = x, y` (and `curr_x, curr_y = x, y`), raises unless
`poi_is_inside`, runs the `while` loop, and on normal exit returns
`np.mean(self.CurrentPointArray)` after resetting `self.CurrentPointArray`
to `[]`; the `KeyboardInterrupt` handler resets `self.CurrentPointArray`,
`self.xPOI` and `self.yPOI` and returns `None`. -/
noncomputable def get_poi_temp (tp : TemperatureProblem) (x y : ℝ)
    (evs : List WalkEvent) : PoiResult :=
  let tp1 : TemperatureProblem := { tp with xPOI := some x, yPOI := some y }
  if tp1.poi_is_inside then
    match runLoop tp1 x y evs x y tp1.CurrentPointArray with
    | .done arr => .ok (listMean arr) { tp1 with CurrentPointArray := [] }
    | .interrupted =>
        .cancelled { tp1 with xPOI := none, yPOI := none, CurrentPointArray := [] }
    | .running => .running
  else .invalidPOI tp1

end

/-- One complete walk (one trial): starting from `(cx, cy)`, apply the
displacement step and the wall test once per `rand` event until a wall is hit;
return the wall index hit and the unconsumed events.  `none` when the events
run out or an interrupt arrives before any wall is hit. -/
noncomputable def trialWalk (tp : TemperatureProblem) :
    List WalkEvent → ℝ → ℝ → Option (ℕ × List WalkEvent)
  | [], _, _ => none
  | .interrupt :: _, _, _ => none
  | .rand u :: rest, cx, cy =>
    match tp.point_is_next_to_wall (tp.get_circle_and_rnd_point cx cy u).1
        (tp.get_circle_and_rnd_point cx cy u).2 with
    | some wall => some (wall, rest)
    | none =>
        trialWalk tp rest (tp.get_circle_and_rnd_point cx cy u).1
          (tp.get_circle_and_rnd_point cx cy u).2

/-- Run `n` trials: the first starts at `(cx, cy)`, every later one restarts
at the query point `(px, py)`; collect the hit walls' configured temperatures
in order. -/
noncomputable def runTrialsFrom (tp : TemperatureProblem) (px py : ℝ) :
    ℕ → ℝ → ℝ → List WalkEvent → Option (List ℝ)
  | 0, _, _, _ => some []
  | n + 1, cx, cy, evs =>
    match trialWalk tp evs cx cy with
    | none => none
    | some (wall, rest) =>
        (runTrialsFrom tp px py n px py rest).map
          (fun s => tp.borderTemps.getD wall 0 :: s)

/-- Run `n` independent trials, each starting at the query point `(x, y)`. -/
noncomputable def runTrials (tp : TemperatureProblem) (x y : ℝ) (n : ℕ)
    (evs : List WalkEvent) : Option (List ℝ) :=
  runTrialsFrom tp x y n x y evs

end TemperatureProblem

/-- The worked example of the source's `__main__` block:
`TemperatureProblem(15, 10, [10, 5, 5, 20])` (width 15, height 10,
bottom 10, right 5, left 5, top 20). -/
noncomputable def exampleProblem : TemperatureProblem :=
  TemperatureProblem.init 15 10 [10, 5, 5, 20]

/-- A 2 by 2 square domain, all edge temperatures 0. -/
noncomputable def squareProblem : TemperatureProblem :=
  TemperatureProblem.init 2 2 [0, 0, 0, 0]

/-- A 100 by 2 domain, all edge temperatures 0. -/
noncomputable def wideProblem : TemperatureProblem :=
  TemperatureProblem.init 100 2 [0, 0, 0, 0]

/-- An event stream of `n` pairs of random draws `u = 0` (angle `0`) and
`u = 1/2` (angle `π`): step right, then step left. -/
noncomputable def zigzag : ℕ → List WalkEvent
  | 0 => []
  | n + 1 => .rand 0 :: .rand (1 / 2) :: zigzag n

namespace TemperatureProblem

/-- The walk functions read only `xDim`, `yDim` and `borderTemps`; assigning
the POI fields does not change the displacement step. -/
theorem get_circle_poi_irrel (tp : TemperatureProblem) (a b : Option ℝ)
    (cx cy u : ℝ) :
    get_circle_and_rnd_point { tp with xPOI := a, yPOI := b } cx cy u
      = get_circle_and_rnd_point tp cx cy u := rfl

/-- Assigning the POI fields does not change the wall test. -/
theorem wall_poi_irrel (tp : TemperatureProblem) (a b : Option ℝ) (x y : ℝ) :
    point_is_next_to_wall { tp with xPOI := a, yPOI := b } x y
      = point_is_next_to_wall tp x y := rfl

/-- Assigning the POI fields does not change the stored edge temperatures. -/
theorem temps_poi_irrel (tp : TemperatureProblem) (a b : Option ℝ) :
    ({ tp with xPOI := a, yPOI := b } : TemperatureProblem).borderTemps
      = tp.borderTemps := rfl

/-- Assigning the POI fields does not change the trial loop. -/
theorem runLoop_poi_irrel (tp : TemperatureProblem) (a b : Option ℝ)
    (px py : ℝ) (evs : List WalkEvent) (cx cy : ℝ) (arr : List ℝ) :
    runLoop { tp with xPOI := a, yPOI := b } px py evs cx cy arr
      = runLoop tp px py evs cx cy arr := by
  induction evs generalizing cx cy arr with
  | nil => rw [runLoop.eq_def, runLoop.eq_def]
  | cons e rest ih =>
    rw [runLoop.eq_def, runLoop.eq_def]
    by_cases h : DICE_ROLLS_PER_DOT ≤ arr.length
    · rw [if_pos h, if_pos h]
    · rw [if_neg h, if_neg h]
      cases e with
      | interrupt => rfl
      | rand u =>
        simp only [get_circle_poi_irrel, wall_poi_irrel, temps_poi_irrel]
        cases hw : tp.point_is_next_to_wall (tp.get_circle_and_rnd_point cx cy u).1
            (tp.get_circle_and_rnd_point cx cy u).2 with
        | none => simp only [hw, ih]
        | some w => simp only [hw, ih]

/-- Assigning the POI fields does not change a single trial. -/
theorem trialWalk_poi_irrel (tp : TemperatureProblem) (a b : Option ℝ)
    (evs : List WalkEvent) (cx cy : ℝ) :
    trialWalk { tp with xPOI := a, yPOI := b } evs cx cy
      = trialWalk tp evs cx cy := by
  induction evs generalizing cx cy with
  | nil => rfl
  | cons e rest ih =>
    cases e with
    | interrupt => rfl
    | rand u =>
      rw [trialWalk, trialWalk]
      simp only [get_circle_poi_irrel, wall_poi_irrel]
      cases hw : tp.point_is_next_to_wall (tp.get_circle_and_rnd_point cx cy u).1
          (tp.get_circle_and_rnd_point cx cy u).2 with
      | none => simp only [hw, ih]
      | some w => simp only [hw]

/-- Assigning the POI fields does not change a run of trials. -/
theorem runTrialsFrom_poi_irrel (tp : TemperatureProblem) (a b : Option ℝ)
    (px py : ℝ) (n : ℕ) (cx cy : ℝ) (evs : List WalkEvent) :
    runTrialsFrom { tp with xPOI := a, yPOI := b } px py n cx cy evs
      = runTrialsFrom tp px py n cx cy evs := by
  induction n generalizing cx cy evs with
  | zero => rfl
  | succ n ih =>
    rw [runTrialsFrom, runTrialsFrom]
    simp only [trialWalk_poi_irrel, temps_poi_irrel]
    cases ht : trialWalk tp evs cx cy with
    | none => rfl
    | some pr => simp only [ih]

end TemperatureProblem

namespace TemperatureProblem

/-- First wall check of `point_is_next_to_wall`: within epsilon of the left
wall returns `2`. -/
theorem wall_eq_left (tp : TemperatureProblem) {x : ℝ} (y : ℝ)
    (h1 : x ≤ WALL_EPSILON) : tp.point_is_next_to_wall x y = some 2 := by
  unfold point_is_next_to_wall
  rw [if_pos h1]

/-- Second wall check: not within epsilon of the left wall but within epsilon
of the bottom wall returns `0`. -/
theorem wall_eq_bottom (tp : TemperatureProblem) {x y : ℝ}
    (h1 : ¬ x ≤ WALL_EPSILON) (h2 : y ≤ WALL_EPSILON) :
    tp.point_is_next_to_wall x y = some 0 := by
  unfold point_is_next_to_wall
  rw [if_neg h1, if_pos h2]

/-- Third wall check: within epsilon only of the right wall returns `1`. -/
theorem wall_eq_right (tp : TemperatureProblem) {x y : ℝ}
    (h1 : ¬ x ≤ WALL_EPSILON) (h2 : ¬ y ≤ WALL_EPSILON)
    (h3 : tp.xDim - x ≤ WALL_EPSILON) :
    tp.point_is_next_to_wall x y = some 1 := by
  unfold point_is_next_to_wall
  rw [if_neg h1, if_neg h2, if_pos h3]

/-- Fourth wall check: within epsilon only of the top wall returns `3`. -/
theorem wall_eq_top (tp : TemperatureProblem) {x y : ℝ}
    (h1 : ¬ x ≤ WALL_EPSILON) (h2 : ¬ y ≤ WALL_EPSILON)
    (h3 : ¬ tp.xDim - x ≤ WALL_EPSILON) (h4 : tp.yDim - y ≤ WALL_EPSILON) :
    tp.point_is_next_to_wall x y = some 3 := by
  unfold point_is_next_to_wall
  rw [if_neg h1, if_neg h2, if_neg h3, if_pos h4]

/-- No wall check matches: the wall test returns `None` exactly when the point
is more than epsilon away from all four walls. -/
theorem wall_eq_none_iff (tp : TemperatureProblem) (x y : ℝ) :
    tp.point_is_next_to_wall x y = none ↔
      WALL_EPSILON < x ∧ WALL_EPSILON < y ∧
      WALL_EPSILON < tp.xDim - x ∧ WALL_EPSILON < tp.yDim - y := by
  constructor
  · intro h
    unfold point_is_next_to_wall at h
    split_ifs at h with h1 h2 h3 h4
    exact ⟨not_le.1 h1, not_le.1 h2, not_le.1 h3, not_le.1 h4⟩
  · rintro ⟨h1, h2, h3, h4⟩
    unfold point_is_next_to_wall
    rw [if_neg (not_le.2 h1), if_neg (not_le.2 h2), if_neg (not_le.2 h3),
      if_neg (not_le.2 h4)]

/-- Unfolding: the loop exits as soon as the sample list is full. -/
theorem runLoop_full (tp : TemperatureProblem) (px py : ℝ)
    (evs : List WalkEvent) (cx cy : ℝ) {arr : List ℝ}
    (h : DICE_ROLLS_PER_DOT ≤ arr.length) :
    runLoop tp px py evs cx cy arr = .done arr := by
  rw [runLoop.eq_def, if_pos h]

/-- Unfolding: event stream exhausted with the sample list not yet full. -/
theorem runLoop_nil (tp : TemperatureProblem) (px py cx cy : ℝ) {arr : List ℝ}
    (h : ¬ DICE_ROLLS_PER_DOT ≤ arr.length) :
    runLoop tp px py [] cx cy arr = .running := by
  rw [runLoop.eq_def, if_neg h]

/-- Unfolding: a `KeyboardInterrupt` during an iteration of the loop. -/
theorem runLoop_interrupt (tp : TemperatureProblem) (px py : ℝ)
    (rest : List WalkEvent) (cx cy : ℝ) {arr : List ℝ}
    (h : ¬ DICE_ROLLS_PER_DOT ≤ arr.length) :
    runLoop tp px py (.interrupt :: rest) cx cy arr = .interrupted := by
  rw [runLoop.eq_def, if_neg h]

/-- Unfolding: an iteration whose generated point lands next to a wall appends
that wall's temperature and resets the walk to the query point. -/
theorem runLoop_hit (tp : TemperatureProblem) (px py : ℝ) {u : ℝ}
    (rest : List WalkEvent) {cx cy : ℝ} {arr : List ℝ} {w : ℕ}
    (h : ¬ DICE_ROLLS_PER_DOT ≤ arr.length)
    (hw : tp.point_is_next_to_wall (tp.get_circle_and_rnd_point cx cy u).1
      (tp.get_circle_and_rnd_point cx cy u).2 = some w) :
    runLoop tp px py (.rand u :: rest) cx cy arr
      = runLoop tp px py rest px py (arr ++ [tp.borderTemps.getD w 0]) := by
  rw [runLoop.eq_def, if_neg h]
  simp only [hw]

/-- Unfolding: an iteration whose generated point is not next to any wall
moves the walk to the generated point. -/
theorem runLoop_miss (tp : TemperatureProblem) (px py : ℝ) {u : ℝ}
    (rest : List WalkEvent) {cx cy : ℝ} {arr : List ℝ}
    (h : ¬ DICE_ROLLS_PER_DOT ≤ arr.length)
    (hw : tp.point_is_next_to_wall (tp.get_circle_and_rnd_point cx cy u).1
      (tp.get_circle_and_rnd_point cx cy u).2 = none) :
    runLoop tp px py (.rand u :: rest) cx cy arr
      = runLoop tp px py rest (tp.get_circle_and_rnd_point cx cy u).1
          (tp.get_circle_and_rnd_point cx cy u).2 arr := by
  rw [runLoop.eq_def, if_neg h]
  simp only [hw]

/-- Unfolding: a trial whose generated point lands next to a wall. -/
theorem trialWalk_hit (tp : TemperatureProblem) {u : ℝ}
    (rest : List WalkEvent) {cx cy : ℝ} {w : ℕ}
    (hw : tp.point_is_next_to_wall (tp.get_circle_and_rnd_point cx cy u).1
      (tp.get_circle_and_rnd_point cx cy u).2 = some w) :
    trialWalk tp (.rand u :: rest) cx cy = some (w, rest) := by
  rw [trialWalk]
  simp only [hw]

/-- Unfolding: a trial whose generated point misses all walls continues from
the generated point. -/
theorem trialWalk_miss (tp : TemperatureProblem) {u : ℝ}
    (rest : List WalkEvent) {cx cy : ℝ}
    (hw : tp.point_is_next_to_wall (tp.get_circle_and_rnd_point cx cy u).1
      (tp.get_circle_and_rnd_point cx cy u).2 = none) :
    trialWalk tp (.rand u :: rest) cx cy
      = trialWalk tp rest (tp.get_circle_and_rnd_point cx cy u).1
          (tp.get_circle_and_rnd_point cx cy u).2 := by
  rw [trialWalk]
  simp only [hw]

end TemperatureProblem

namespace TemperatureProblem

/-- A run of trials that yields a list yields exactly as many samples as
trials. -/
theorem runTrialsFrom_length (tp : TemperatureProblem) (px py : ℝ) :
    ∀ (n : ℕ) (cx cy : ℝ) (evs : List WalkEvent) (s : List ℝ),
      runTrialsFrom tp px py n cx cy evs = some s → s.length = n := by
  intro n
  induction n with
  | zero =>
    intro cx cy evs s h
    rw [runTrialsFrom] at h
    simp only [Option.some.injEq] at h
    simp [← h]
  | succ n ih =>
    intro cx cy evs s h
    rw [runTrialsFrom] at h
    cases ht : trialWalk tp evs cx cy with
    | none => simp [ht] at h
    | some pr =>
      obtain ⟨w, rest⟩ := pr
      simp only [ht] at h
      cases hr : runTrialsFrom tp px py n px py rest with
      | none => simp [hr] at h
      | some s' =>
        rw [hr] at h
        simp only [Option.map_some', Option.some.injEq] at h
        rw [← h]
        simp [ih px py rest s' hr]

/-- Decomposition of the trial loop: if the `while` loop of `get_poi_temp`
finishes normally with sample list `full`, then the run is exactly a sequence
of `DICE_ROLLS_PER_DOT - arr.length` complete wall-hitting walks, the first
from the current position and every later one restarted at the query point,
and `full` extends the incoming accumulator `arr` with the hit walls'
configured temperatures in order. -/
theorem runLoop_done_eq_trials (tp : TemperatureProblem) (px py : ℝ) :
    ∀ (evs : List WalkEvent) (cx cy : ℝ) (arr full : List ℝ),
      runLoop tp px py evs cx cy arr = .done full →
      ∃ s, runTrialsFrom tp px py (DICE_ROLLS_PER_DOT - arr.length) cx cy evs
          = some s ∧ full = arr ++ s := by
  intro evs
  induction evs with
  | nil =>
    intro cx cy arr full h
    by_cases hlen : DICE_ROLLS_PER_DOT ≤ arr.length
    · rw [runLoop_full tp px py _ cx cy hlen] at h
      injection h with h'
      refine ⟨[], ?_, ?_⟩
      · rw [Nat.sub_eq_zero_of_le hlen, runTrialsFrom]
      · simp [← h']
    · rw [runLoop_nil tp px py cx cy hlen] at h
      simp at h
  | cons e rest ih =>
    intro cx cy arr full h
    by_cases hlen : DICE_ROLLS_PER_DOT ≤ arr.length
    · rw [runLoop_full tp px py _ cx cy hlen] at h
      injection h with h'
      refine ⟨[], ?_, ?_⟩
      · rw [Nat.sub_eq_zero_of_le hlen, runTrialsFrom]
      · simp [← h']
    · have hsub : DICE_ROLLS_PER_DOT - arr.length
          = (DICE_ROLLS_PER_DOT - (arr.length + 1)) + 1 := by omega
      cases e with
      | interrupt =>
        rw [runLoop_interrupt tp px py rest cx cy hlen] at h
        simp at h
      | rand u =>
        cases hw : tp.point_is_next_to_wall
            (tp.get_circle_and_rnd_point cx cy u).1
            (tp.get_circle_and_rnd_point cx cy u).2 with
        | some w =>
          rw [runLoop_hit tp px py rest hlen hw] at h
          obtain ⟨s', hs', hfull⟩ := ih px py (arr ++ [tp.borderTemps.getD w 0]) full h
          simp only [List.length_append, List.length_singleton] at hs'
          refine ⟨tp.borderTemps.getD w 0 :: s', ?_, ?_⟩
          · rw [hsub, runTrialsFrom, trialWalk_hit tp rest hw]
            simp [hs']
          · rw [hfull, List.append_assoc]
            rfl
        | none =>
          rw [runLoop_miss tp px py rest hlen hw] at h
          obtain ⟨s, hs, hfull⟩ :=
            ih (tp.get_circle_and_rnd_point cx cy u).1
              (tp.get_circle_and_rnd_point cx cy u).2 arr full h
          refine ⟨s, ?_, hfull⟩
          rw [hsub] at hs
          rw [runTrialsFrom] at hs
          rw [hsub, runTrialsFrom, trialWalk_miss tp rest hw]
          exact hs

end TemperatureProblem

namespace TemperatureProblem

section
open Classical

/-- Unfolding of `get_poi_temp` with the temporary object state written out. -/
theorem get_poi_temp_eq (tp : TemperatureProblem) (x y : ℝ)
    (evs : List WalkEvent) :
    get_poi_temp tp x y evs =
      if ({ tp with xPOI := some x, yPOI := some y } :
          TemperatureProblem).poi_is_inside then
        match runLoop { tp with xPOI := some x, yPOI := some y } x y evs x y
            tp.CurrentPointArray with
        | .done arr =>
            .ok (listMean arr)
              { tp with xPOI := some x, yPOI := some y, CurrentPointArray := [] }
        | .interrupted =>
            .cancelled { tp with xPOI := none, yPOI := none, CurrentPointArray := [] }
        | .running => .running
      else .invalidPOI { tp with xPOI := some x, yPOI := some y } := rfl

end

/-- The inside check evaluated on the state whose POI fields were just
assigned: the source's `or` of the two range checks. -/
theorem poi_is_inside_some (tp : TemperatureProblem) (x y : ℝ) :
    ({ tp with xPOI := some x, yPOI := some y } :
        TemperatureProblem).poi_is_inside
      ↔ ((0 ≤ x ∧ x ≤ tp.xDim) ∨ (0 ≤ y ∧ y ≤ tp.yDim)) := Iff.rfl

/-- The x coordinate produced by the displacement step. -/
theorem get_circle_fst (tp : TemperatureProblem) (x y u : ℝ) :
    (tp.get_circle_and_rnd_point x y u).1
      = x + stepRadius tp x y * Real.cos (u * 2 * Real.pi) := rfl

/-- The y coordinate produced by the displacement step. -/
theorem get_circle_snd (tp : TemperatureProblem) (x y u : ℝ) :
    (tp.get_circle_and_rnd_point x y u).2
      = y + stepRadius tp x y * Real.sin (u * 2 * Real.pi) := rfl

/-- `runLoop_hit` with the generated point given as an equation. -/
theorem runLoop_hit' (tp : TemperatureProblem) (px py : ℝ) {u : ℝ}
    (rest : List WalkEvent) {cx cy nx ny : ℝ} {arr : List ℝ} {w : ℕ}
    (h : ¬ DICE_ROLLS_PER_DOT ≤ arr.length)
    (hp : tp.get_circle_and_rnd_point cx cy u = (nx, ny))
    (hw : tp.point_is_next_to_wall nx ny = some w) :
    runLoop tp px py (.rand u :: rest) cx cy arr
      = runLoop tp px py rest px py (arr ++ [tp.borderTemps.getD w 0]) := by
  apply runLoop_hit tp px py rest h
  rw [hp]
  exact hw

/-- `runLoop_miss` with the generated point given as an equation. -/
theorem runLoop_miss' (tp : TemperatureProblem) (px py : ℝ) {u : ℝ}
    (rest : List WalkEvent) {cx cy nx ny : ℝ} {arr : List ℝ}
    (h : ¬ DICE_ROLLS_PER_DOT ≤ arr.length)
    (hp : tp.get_circle_and_rnd_point cx cy u = (nx, ny))
    (hw : tp.point_is_next_to_wall nx ny = none) :
    runLoop tp px py (.rand u :: rest) cx cy arr
      = runLoop tp px py rest nx ny arr := by
  have := runLoop_miss tp px py rest h (by rw [hp]; exact hw)
  rw [hp] at this
  exact this

/-- The mean of `n` copies of `t` is `t`. -/
theorem listMean_replicate (n : ℕ) (hn : n ≠ 0) (t : ℝ) :
    listMean (List.replicate n t) = t := by
  unfold listMean
  rw [List.sum_replicate, List.length_replicate, nsmul_eq_mul]
  field_simp

/-- For a query point left of the rectangle (negative `x`, `y` within the
height range), the step radius `min(xDim - x, yDim - y, x, y)` is the
negative coordinate `x` itself. -/
theorem stepRadius_of_neg_x (tp : TemperatureProblem) {x y : ℝ}
    (hw : 0 < tp.xDim) (hx : x < 0) (hy0 : 0 ≤ y) (hyh : y ≤ tp.yDim) :
    stepRadius tp x y = x := by
  unfold stepRadius
  have h1 : (0:ℝ) ≤ min (tp.xDim - x) (tp.yDim - y) :=
    le_min (by linarith) (by linarith)
  rw [min_eq_right (by linarith : x ≤ min (tp.xDim - x) (tp.yDim - y)),
    min_eq_left (by linarith : x ≤ y)]

/-- For a query point left of the rectangle, every displacement step from it
lands at `x * (1 + cos θ) ≤ 0`, so the wall test reports the left wall
(identifier `2`) immediately, whatever the random draw was. -/
theorem step_from_neg_x_hits_left (tp : TemperatureProblem) {x y : ℝ}
    (hw : 0 < tp.xDim) (hx : x < 0) (hy0 : 0 ≤ y) (hyh : y ≤ tp.yDim)
    (u : ℝ) :
    tp.point_is_next_to_wall (tp.get_circle_and_rnd_point x y u).1
      (tp.get_circle_and_rnd_point x y u).2 = some 2 := by
  apply wall_eq_left
  rw [get_circle_fst, stepRadius_of_neg_x tp hw hx hy0 hyh]
  have hc : -1 ≤ Real.cos (u * 2 * Real.pi) := Real.neg_one_le_cos _
  have hnp : x * (1 + Real.cos (u * 2 * Real.pi)) ≤ 0 :=
    mul_nonpos_of_nonpos_of_nonneg (le_of_lt hx) (by linarith)
  unfold WALL_EPSILON
  nlinarith

/-- Running the loop for a query point left of the rectangle: every `rand`
event contributes one sample equal to the left wall's temperature, until the
sample list is full. -/
theorem runLoop_neg_x (tp : TemperatureProblem) {x y : ℝ}
    (hw : 0 < tp.xDim) (hx : x < 0) (hy0 : 0 ≤ y) (hyh : y ≤ tp.yDim) :
    ∀ (us : List ℝ) (arr : List ℝ),
      DICE_ROLLS_PER_DOT ≤ arr.length + us.length →
      runLoop tp x y (us.map WalkEvent.rand) x y arr
        = .done (arr ++ List.replicate (DICE_ROLLS_PER_DOT - arr.length)
            (tp.borderTemps.getD 2 0)) := by
  intro us
  induction us with
  | nil =>
    intro arr hlen
    simp only [List.length_nil, Nat.add_zero] at hlen
    rw [List.map_nil, runLoop_full tp x y _ x y hlen,
      Nat.sub_eq_zero_of_le hlen]
    simp
  | cons u us ih =>
    intro arr hlen
    by_cases hfull : DICE_ROLLS_PER_DOT ≤ arr.length
    · rw [runLoop_full tp x y _ x y hfull, Nat.sub_eq_zero_of_le hfull]
      simp
    · rw [List.map_cons,
        runLoop_hit tp x y _ hfull (step_from_neg_x_hits_left tp hw hx hy0 hyh u),
        ih (arr ++ [tp.borderTemps.getD 2 0])
          (by simp only [List.length_append, List.length_singleton,
                List.length_cons] at hlen ⊢; omega)]
      rw [List.append_assoc]
      congr 1
      have hsub : DICE_ROLLS_PER_DOT - arr.length
          = (DICE_ROLLS_PER_DOT - (arr.length + 1)) + 1 := by omega
      rw [List.length_append, List.length_singleton, hsub, List.replicate_succ]
      rfl

/-- A call to `get_poi_temp` for a query point left of the rectangle passes
the inside check and returns the left wall's configured temperature, however
many random draws are supplied (as long as the stream is long enough for the
1000 one-step trials). -/
theorem get_poi_temp_neg_x (tp : TemperatureProblem) {x y : ℝ}
    (hw : 0 < tp.xDim) (hx : x < 0) (hy0 : 0 ≤ y) (hyh : y ≤ tp.yDim)
    (hfresh : tp.CurrentPointArray = []) (us : List ℝ)
    (hlen : DICE_ROLLS_PER_DOT ≤ us.length) :
    get_poi_temp tp x y (us.map WalkEvent.rand)
      = .ok (tp.borderTemps.getD 2 0)
          { tp with xPOI := some x, yPOI := some y, CurrentPointArray := [] } := by
  rw [get_poi_temp_eq,
    if_pos ((poi_is_inside_some tp x y).2 (Or.inr ⟨hy0, hyh⟩)),
    runLoop_poi_irrel, hfresh,
    runLoop_neg_x tp hw hx hy0 hyh us [] (by simpa using hlen)]
  simp only [List.length_nil, Nat.sub_zero, List.nil_append]
  rw [listMean_replicate DICE_ROLLS_PER_DOT (by norm_num [DICE_ROLLS_PER_DOT]) _]

end TemperatureProblem

namespace TemperatureProblem

/-- In the 100 by 2 domain, the step from `(50, 1)` with draw `u = 0`
(angle `0`) lands at `(51, 1)`. -/
theorem zigzag_step1 : wideProblem.get_circle_and_rnd_point 50 1 0 = (51, 1) := by
  simp only [get_circle_and_rnd_point, wideProblem, init]
  rw [zero_mul, zero_mul, Real.cos_zero, Real.sin_zero]
  norm_num [min_def, Prod.ext_iff]

/-- In the 100 by 2 domain, the step from `(51, 1)` with draw `u = 1/2`
(angle `π`) lands back at `(50, 1)`. -/
theorem zigzag_step2 :
    wideProblem.get_circle_and_rnd_point 51 1 (1 / 2) = (50, 1) := by
  have hang : (1 / 2 : ℝ) * 2 * Real.pi = Real.pi := by ring
  simp only [get_circle_and_rnd_point, wideProblem, init]
  rw [hang, Real.cos_pi, Real.sin_pi]
  norm_num [min_def, Prod.ext_iff]

/-- `(51, 1)` is not within epsilon of any wall of the 100 by 2 domain. -/
theorem zigzag_wall1 : wideProblem.point_is_next_to_wall 51 1 = none := by
  rw [wall_eq_none_iff]
  norm_num [wideProblem, init, WALL_EPSILON]

/-- `(50, 1)` is not within epsilon of any wall of the 100 by 2 domain. -/
theorem zigzag_wall2 : wideProblem.point_is_next_to_wall 50 1 = none := by
  rw [wall_eq_none_iff]
  norm_num [wideProblem, init, WALL_EPSILON]

/-- Alternating right and left steps from `(50, 1)` in the 100 by 2 domain
never meet a wall: after any number of steps the trial loop is still running,
with no sample collected and no failure raised. -/
theorem zigzag_running (n : ℕ) :
    runLoop wideProblem 50 1 (zigzag n) 50 1 [] = .running := by
  induction n with
  | zero =>
    rw [zigzag]
    exact runLoop_nil _ _ _ _ _ (by norm_num [DICE_ROLLS_PER_DOT])
  | succ n ih =>
    have hlen : ¬ DICE_ROLLS_PER_DOT ≤ ([] : List ℝ).length := by
      norm_num [DICE_ROLLS_PER_DOT]
    rw [zigzag, runLoop_miss' _ _ _ _ hlen zigzag_step1 zigzag_wall1,
      runLoop_miss' _ _ _ _ hlen zigzag_step2 zigzag_wall2]
    exact ih

end TemperatureProblem

namespace TemperatureProblem

/-- The step radius is at most the distance to the left wall. -/
theorem stepRadius_le_x (tp : TemperatureProblem) (x y : ℝ) :
    stepRadius tp x y ≤ x :=
  le_trans (min_le_left _ _) (min_le_right _ _)

/-- The step radius is at most the distance to the bottom wall. -/
theorem stepRadius_le_y (tp : TemperatureProblem) (x y : ℝ) :
    stepRadius tp x y ≤ y :=
  min_le_right _ _

/-- The step radius is at most the distance to the right wall. -/
theorem stepRadius_le_right (tp : TemperatureProblem) (x y : ℝ) :
    stepRadius tp x y ≤ tp.xDim - x :=
  le_trans (min_le_left _ _) (le_trans (min_le_left _ _) (min_le_left _ _))

/-- The step radius is at most the distance to the top wall. -/
theorem stepRadius_le_top (tp : TemperatureProblem) (x y : ℝ) :
    stepRadius tp x y ≤ tp.yDim - y :=
  le_trans (min_le_left _ _) (le_trans (min_le_left _ _) (min_le_right _ _))

/-- `(1, 1)` is not within epsilon of any wall of the 2 by 2 domain. -/
theorem squareProblem_center_wall_none :
    squareProblem.point_is_next_to_wall 1 1 = none := by
  rw [wall_eq_none_iff]
  norm_num [squareProblem, init, WALL_EPSILON]

end TemperatureProblem

open TemperatureProblem

/-- Claim C3: one displacement step from `(x, y)` computes the radius
`r = min(x, width - x, y, height - y)` — the minimum of the distances to the
four walls, which is exactly the radius of the largest circle centered at
`(x, y)` staying inside the closed rectangle — turns the uniform draw
`u ∈ [0, 1)` into an angle `θ = u·2π ∈ [0, 2π)`, and returns exactly
`(x + r·cos θ, y + r·sin θ)`. -/
theorem get_circle_and_rnd_point_spec (tp : TemperatureProblem)
    (x y u ρ : ℝ) (hu0 : 0 ≤ u) (hu1 : u < 1) (hρ : 0 ≤ ρ) :
    (0 ≤ u * 2 * Real.pi ∧ u * 2 * Real.pi < 2 * Real.pi)
    ∧ tp.get_circle_and_rnd_point x y u
      = (x + stepRadius tp x y * Real.cos (u * 2 * Real.pi),
         y + stepRadius tp x y * Real.sin (u * 2 * Real.pi))
    ∧ stepRadius tp x y = min (min x (tp.xDim - x)) (min y (tp.yDim - y))
    ∧ (ρ ≤ stepRadius tp x y ↔
        ∀ c s : ℝ, c ^ 2 + s ^ 2 = 1 →
          0 ≤ x + ρ * c ∧ x + ρ * c ≤ tp.xDim
          ∧ 0 ≤ y + ρ * s ∧ y + ρ * s ≤ tp.yDim) := by
  have hpi := Real.pi_pos
  refine ⟨⟨?_, ?_⟩, rfl, ?_, ?_⟩
  · positivity
  · nlinarith
  · apply le_antisymm
    · simp only [le_min_iff]
      refine ⟨⟨stepRadius_le_x tp x y, stepRadius_le_right tp x y⟩,
        stepRadius_le_y tp x y, stepRadius_le_top tp x y⟩
    · unfold stepRadius
      simp [le_min_iff, min_le_iff]
  · constructor
    · intro hle c s hcs
      have hc1 : -1 ≤ c := by nlinarith [sq_nonneg (c + 1), sq_nonneg s]
      have hc2 : c ≤ 1 := by nlinarith [sq_nonneg (c - 1), sq_nonneg s]
      have hs1 : -1 ≤ s := by nlinarith [sq_nonneg (s + 1), sq_nonneg c]
      have hs2 : s ≤ 1 := by nlinarith [sq_nonneg (s - 1), sq_nonneg c]
      have hx := stepRadius_le_x tp x y
      have hy := stepRadius_le_y tp x y
      have hr := stepRadius_le_right tp x y
      have ht := stepRadius_le_top tp x y
      have h1 : 0 ≤ ρ * (c + 1) := mul_nonneg hρ (by linarith)
      have h2 : 0 ≤ ρ * (1 - c) := mul_nonneg hρ (by linarith)
      have h3 : 0 ≤ ρ * (s + 1) := mul_nonneg hρ (by linarith)
      have h4 : 0 ≤ ρ * (1 - s) := mul_nonneg hρ (by linarith)
      refine ⟨by nlinarith, by nlinarith, by nlinarith, by nlinarith⟩
    · intro h
      have hl := h (-1) 0 (by norm_num)
      have hr := h 1 0 (by norm_num)
      have hb := h 0 (-1) (by norm_num)
      have ht := h 0 1 (by norm_num)
      unfold stepRadius
      exact le_min (le_min (le_min (by linarith [hr.2.1]) (by linarith [ht.2.2.2]))
        (by linarith [hl.1])) (by linarith [hb.2.2.1])

/-- Witness for C3 at the concrete input `(3, 4)` with draw `u = 0` and test
radius `ρ = 1` in the 15 by 10 example domain. -/
theorem get_circle_and_rnd_point_spec_witness :
    (0 ≤ (0:ℝ) * 2 * Real.pi ∧ (0:ℝ) * 2 * Real.pi < 2 * Real.pi)
    ∧ exampleProblem.get_circle_and_rnd_point 3 4 0
      = (3 + stepRadius exampleProblem 3 4 * Real.cos ((0:ℝ) * 2 * Real.pi),
         4 + stepRadius exampleProblem 3 4 * Real.sin ((0:ℝ) * 2 * Real.pi))
    ∧ stepRadius exampleProblem 3 4
      = min (min 3 (exampleProblem.xDim - 3)) (min 4 (exampleProblem.yDim - 4))
    ∧ ((1:ℝ) ≤ stepRadius exampleProblem 3 4 ↔
        ∀ c s : ℝ, c ^ 2 + s ^ 2 = 1 →
          0 ≤ 3 + (1:ℝ) * c ∧ 3 + (1:ℝ) * c ≤ exampleProblem.xDim
          ∧ 0 ≤ 4 + (1:ℝ) * s ∧ 4 + (1:ℝ) * s ≤ exampleProblem.yDim) :=
  get_circle_and_rnd_point_spec exampleProblem 3 4 0 1
    (by norm_num) (by norm_num) (by norm_num)

/-- Claim C4 as stated is refuted: `(1, 1)` in the 2 by 2 domain is strictly
inside the rectangle and not within epsilon of any wall, yet the displacement
step with draw `u = 1/2` (angle `π`) lands at `(0, 1)`, which has left the
OPEN rectangle `(0, 2) × (0, 2)` — the step can land exactly on the
boundary. -/
theorem step_can_reach_boundary :
    squareProblem.point_is_next_to_wall 1 1 = none
    ∧ (0:ℝ) < 1 ∧ (1:ℝ) < squareProblem.xDim
    ∧ (0:ℝ) < 1 ∧ (1:ℝ) < squareProblem.yDim
    ∧ squareProblem.get_circle_and_rnd_point 1 1 (1 / 2) = (0, 1)
    ∧ ¬ (0 < (squareProblem.get_circle_and_rnd_point 1 1 (1 / 2)).1) := by
  have hp : squareProblem.get_circle_and_rnd_point 1 1 (1 / 2) = (0, 1) := by
    have hang : (1 / 2 : ℝ) * 2 * Real.pi = Real.pi := by ring
    simp only [get_circle_and_rnd_point, squareProblem, init]
    rw [hang, Real.cos_pi, Real.sin_pi]
    norm_num [min_def, Prod.ext_iff]
  refine ⟨squareProblem_center_wall_none, by norm_num,
    by norm_num [squareProblem, init], by norm_num,
    by norm_num [squareProblem, init], hp, ?_⟩
  rw [hp]
  norm_num

/-- Claim C4 amended: from a position strictly inside the rectangle and not
within epsilon of any wall, one displacement step stays within the CLOSED
rectangle `[0, width] × [0, height]`, whatever the random draw: it can land
exactly on the boundary but never beyond it. -/
theorem step_stays_in_closed_rectangle (tp : TemperatureProblem) {x y : ℝ}
    (hx0 : 0 < x) (hxw : x < tp.xDim) (hy0 : 0 < y) (hyh : y < tp.yDim)
    (hwall : tp.point_is_next_to_wall x y = none) (u : ℝ) :
    0 ≤ (tp.get_circle_and_rnd_point x y u).1
    ∧ (tp.get_circle_and_rnd_point x y u).1 ≤ tp.xDim
    ∧ 0 ≤ (tp.get_circle_and_rnd_point x y u).2
    ∧ (tp.get_circle_and_rnd_point x y u).2 ≤ tp.yDim := by
  rw [get_circle_fst, get_circle_snd]
  have hr0 : 0 ≤ stepRadius tp x y := by
    unfold stepRadius
    exact le_min (le_min (le_min (by linarith) (by linarith)) (by linarith))
      (by linarith)
  have hc1 : -1 ≤ Real.cos (u * 2 * Real.pi) := Real.neg_one_le_cos _
  have hc2 : Real.cos (u * 2 * Real.pi) ≤ 1 := Real.cos_le_one _
  have hs1 : -1 ≤ Real.sin (u * 2 * Real.pi) := Real.neg_one_le_sin _
  have hs2 : Real.sin (u * 2 * Real.pi) ≤ 1 := Real.sin_le_one _
  have hx := stepRadius_le_x tp x y
  have hy := stepRadius_le_y tp x y
  have hr := stepRadius_le_right tp x y
  have ht := stepRadius_le_top tp x y
  have h1 : 0 ≤ stepRadius tp x y * (Real.cos (u * 2 * Real.pi) + 1) :=
    mul_nonneg hr0 (by linarith)
  have h2 : 0 ≤ stepRadius tp x y * (1 - Real.cos (u * 2 * Real.pi)) :=
    mul_nonneg hr0 (by linarith)
  have h3 : 0 ≤ stepRadius tp x y * (Real.sin (u * 2 * Real.pi) + 1) :=
    mul_nonneg hr0 (by linarith)
  have h4 : 0 ≤ stepRadius tp x y * (1 - Real.sin (u * 2 * Real.pi)) :=
    mul_nonneg hr0 (by linarith)
  refine ⟨by nlinarith, by nlinarith, by nlinarith, by nlinarith⟩

/-- Witness for the amended C4 at `(1, 1)` in the 2 by 2 domain with draw
`u = 0`. -/
theorem step_stays_in_closed_rectangle_witness :
    0 ≤ (squareProblem.get_circle_and_rnd_point 1 1 0).1
    ∧ (squareProblem.get_circle_and_rnd_point 1 1 0).1 ≤ squareProblem.xDim
    ∧ 0 ≤ (squareProblem.get_circle_and_rnd_point 1 1 0).2
    ∧ (squareProblem.get_circle_and_rnd_point 1 1 0).2 ≤ squareProblem.yDim :=
  step_stays_in_closed_rectangle squareProblem (by norm_num)
    (by norm_num [squareProblem, TemperatureProblem.init]) (by norm_num)
    (by norm_num [squareProblem, TemperatureProblem.init])
    squareProblem_center_wall_none 0

/-- Claim C5: the wall checks run in the fixed order left (`x ≤ ε`), bottom
(`y ≤ ε`), right (`width - x ≤ ε`), top (`height - y ≤ ε`), returning the
first match under the identifier convention 0 = bottom, 1 = right, 2 = left,
3 = top, and `None` when no check matches; a near-corner point within epsilon
of two walls therefore resolves to the earlier wall in this order. -/
theorem point_is_next_to_wall_priority (tp : TemperatureProblem) (x y : ℝ) :
    (x ≤ WALL_EPSILON → tp.point_is_next_to_wall x y = some 2)
    ∧ (¬ x ≤ WALL_EPSILON → y ≤ WALL_EPSILON →
        tp.point_is_next_to_wall x y = some 0)
    ∧ (¬ x ≤ WALL_EPSILON → ¬ y ≤ WALL_EPSILON →
        tp.xDim - x ≤ WALL_EPSILON → tp.point_is_next_to_wall x y = some 1)
    ∧ (¬ x ≤ WALL_EPSILON → ¬ y ≤ WALL_EPSILON →
        ¬ tp.xDim - x ≤ WALL_EPSILON → tp.yDim - y ≤ WALL_EPSILON →
        tp.point_is_next_to_wall x y = some 3)
    ∧ (¬ x ≤ WALL_EPSILON → ¬ y ≤ WALL_EPSILON →
        ¬ tp.xDim - x ≤ WALL_EPSILON → ¬ tp.yDim - y ≤ WALL_EPSILON →
        tp.point_is_next_to_wall x y = none) :=
  ⟨fun h1 => wall_eq_left tp y h1,
   fun h1 h2 => wall_eq_bottom tp h1 h2,
   fun h1 h2 h3 => wall_eq_right tp h1 h2 h3,
   fun h1 h2 h3 h4 => wall_eq_top tp h1 h2 h3 h4,
   fun h1 h2 h3 h4 => (wall_eq_none_iff tp x y).2
     ⟨not_le.1 h1, not_le.1 h2, not_le.1 h3, not_le.1 h4⟩⟩

/-- Witness for C5: `(0.03, 0.02)` in the example domain is within epsilon of
both the left and the bottom wall, and the test reports the left wall
(identifier 2), the earlier check in the fixed order. -/
theorem point_is_next_to_wall_priority_witness :
    exampleProblem.point_is_next_to_wall 0.03 0.02 = some 2 :=
  (point_is_next_to_wall_priority exampleProblem 0.03 0.02).1
    (by norm_num [WALL_EPSILON])

/-- Claim C1: for every domain and every query point accepted by the
validation, a `get_poi_temp` call (started with an empty sample accumulator,
as every reachable call is) that returns a temperature collected exactly
`DICE_ROLLS_PER_DOT = 1000` samples — each one produced by a complete walk
started at `(x, y)` that repeats the displacement step and the wall test
until a wall is hit and records that wall's configured temperature — and the
returned value is the arithmetic mean of those 1000 samples. -/
theorem get_poi_temp_ok_mean_of_trials (tp : TemperatureProblem) (x y : ℝ)
    (evs : List WalkEvent) (t : ℝ) (st : TemperatureProblem)
    (hfresh : tp.CurrentPointArray = [])
    (hin : ({ tp with xPOI := some x, yPOI := some y } :
      TemperatureProblem).poi_is_inside)
    (hok : get_poi_temp tp x y evs = .ok t st) :
    ∃ s, runTrials tp x y DICE_ROLLS_PER_DOT evs = some s
      ∧ s.length = DICE_ROLLS_PER_DOT
      ∧ t = s.sum / (DICE_ROLLS_PER_DOT : ℝ) := by
  rw [get_poi_temp_eq, if_pos hin, runLoop_poi_irrel, hfresh] at hok
  cases hr : runLoop tp x y evs x y [] with
  | done arr =>
    rw [hr] at hok
    injection hok with h1 h2
    obtain ⟨s, hs, hfull⟩ := runLoop_done_eq_trials tp x y evs x y [] arr hr
    simp only [List.length_nil, Nat.sub_zero, List.nil_append] at hs hfull
    have hlen := runTrialsFrom_length tp x y DICE_ROLLS_PER_DOT x y evs s hs
    refine ⟨s, ?_, hlen, ?_⟩
    · rw [runTrials]
      exact hs
    · rw [← h1, hfull]
      unfold listMean
      rw [hlen]
  | interrupted =>
    rw [hr] at hok
    simp at hok
  | running =>
    rw [hr] at hok
    simp at hok

/-- Witness for C1: the example domain with query point `(-1, 5)` (accepted
by the source's `or`-joined validation) and 1000 zero draws returns `5`, the
mean of the 1000 collected samples. -/
theorem get_poi_temp_ok_mean_of_trials_witness :
    ∃ s, runTrials exampleProblem (-1) 5 DICE_ROLLS_PER_DOT
        ((List.replicate DICE_ROLLS_PER_DOT (0:ℝ)).map WalkEvent.rand) = some s
      ∧ s.length = DICE_ROLLS_PER_DOT
      ∧ (5:ℝ) = s.sum / (DICE_ROLLS_PER_DOT : ℝ) :=
  get_poi_temp_ok_mean_of_trials exampleProblem (-1) 5
    ((List.replicate DICE_ROLLS_PER_DOT (0:ℝ)).map WalkEvent.rand) 5
    { exampleProblem with xPOI := some (-1), yPOI := some 5, CurrentPointArray := [] }
    rfl
    ((poi_is_inside_some _ _ _).2 (Or.inr ⟨by norm_num,
      by norm_num [exampleProblem, TemperatureProblem.init]⟩))
    (by
      have h := @get_poi_temp_neg_x exampleProblem (-1) 5
        (by norm_num [exampleProblem, TemperatureProblem.init]) (by norm_num)
        (by norm_num) (by norm_num [exampleProblem, TemperatureProblem.init])
        rfl (List.replicate DICE_ROLLS_PER_DOT 0) (by simp)
      rw [h]
      norm_num [exampleProblem, TemperatureProblem.init])

/-- Claim C2 refuted (code bug): the source's `poi_is_inside` joins the
x-range and y-range checks with `or`, so the query point `(-1, 5)` of the
width-15 example domain — which violates `0 ≤ x` — passes the validation,
`get_poi_temp` raises nothing, runs the full walk loop, and returns the left
wall's temperature `5`; the claim requires an immediate `InvalidQueryPoint`
failure with zero walk steps. -/
theorem validation_accepts_point_left_of_domain :
    ({ exampleProblem with xPOI := some (-1), yPOI := some 5 } :
        TemperatureProblem).poi_is_inside
    ∧ get_poi_temp exampleProblem (-1) 5
        ((List.replicate DICE_ROLLS_PER_DOT (0:ℝ)).map WalkEvent.rand)
      = .ok 5 { exampleProblem with xPOI := some (-1), yPOI := some 5, CurrentPointArray := [] } := by
  constructor
  · exact (poi_is_inside_some _ _ _).2 (Or.inr ⟨by norm_num,
      by norm_num [exampleProblem, TemperatureProblem.init]⟩)
  · have h := @get_poi_temp_neg_x exampleProblem (-1) 5
      (by norm_num [exampleProblem, TemperatureProblem.init]) (by norm_num)
      (by norm_num) (by norm_num [exampleProblem, TemperatureProblem.init])
      rfl (List.replicate DICE_ROLLS_PER_DOT 0) (by simp)
    rw [h]
    norm_num [exampleProblem, TemperatureProblem.init]

/-- Claim C6: when a cancellation signal arrives during the trial loop of a
validated call, `get_poi_temp` reports the cancelled condition — carrying no
temperature value — and the returned object state has an empty sample
accumulator and cleared POI fields; in particular the call cannot also return
an `ok` temperature. -/
theorem cancellation_discards_samples (tp : TemperatureProblem) (x y : ℝ)
    (evs : List WalkEvent)
    (hin : ({ tp with xPOI := some x, yPOI := some y } :
      TemperatureProblem).poi_is_inside)
    (hint : runLoop { tp with xPOI := some x, yPOI := some y } x y evs x y
        tp.CurrentPointArray = .interrupted) :
    get_poi_temp tp x y evs
      = .cancelled { tp with xPOI := none, yPOI := none, CurrentPointArray := [] }
    ∧ ∀ t st, get_poi_temp tp x y evs ≠ .ok t st := by
  have hmain : get_poi_temp tp x y evs
      = .cancelled { tp with xPOI := none, yPOI := none, CurrentPointArray := [] } := by
    rw [get_poi_temp_eq, if_pos hin, hint]
  refine ⟨hmain, fun t st h => ?_⟩
  rw [hmain] at h
  exact PoiResult.noConfusion h

/-- Witness for C6: an interrupt in the first loop iteration of the call at
`(6, 4)` in the example domain yields the cancelled result with an empty
sample list. -/
theorem cancellation_discards_samples_witness :
    get_poi_temp exampleProblem 6 4 [WalkEvent.interrupt]
      = .cancelled { exampleProblem with xPOI := none, yPOI := none, CurrentPointArray := [] }
    ∧ ∀ t st, get_poi_temp exampleProblem 6 4 [WalkEvent.interrupt]
        ≠ .ok t st :=
  cancellation_discards_samples exampleProblem 6 4 [WalkEvent.interrupt]
    ((poi_is_inside_some _ _ _).2 (Or.inl ⟨by norm_num,
      by norm_num [exampleProblem, TemperatureProblem.init]⟩))
    (runLoop_interrupt _ 6 4 [] 6 4
      (by norm_num [exampleProblem, TemperatureProblem.init, DICE_ROLLS_PER_DOT]))

/-- Claim C7: `get_poi_temp` never mutates the domain fields (width, height,
edge temperatures), and every call that returns — normally or via
cancellation — leaves the sample accumulator `CurrentPointArray` empty, so a
following call starts from the same empty sample state; even the
invalid-point raise leaves the domain fields untouched. -/
theorem get_poi_temp_frame (tp : TemperatureProblem) (x y : ℝ)
    (evs : List WalkEvent) :
    (∀ t st, get_poi_temp tp x y evs = .ok t st →
      st.xDim = tp.xDim ∧ st.yDim = tp.yDim ∧ st.borderTemps = tp.borderTemps
        ∧ st.CurrentPointArray = [])
    ∧ (∀ st, get_poi_temp tp x y evs = .cancelled st →
      st.xDim = tp.xDim ∧ st.yDim = tp.yDim ∧ st.borderTemps = tp.borderTemps
        ∧ st.CurrentPointArray = [])
    ∧ (∀ st, get_poi_temp tp x y evs = .invalidPOI st →
      st.xDim = tp.xDim ∧ st.yDim = tp.yDim
        ∧ st.borderTemps = tp.borderTemps) := by
  rw [get_poi_temp_eq]
  by_cases hin : ({ tp with xPOI := some x, yPOI := some y } :
      TemperatureProblem).poi_is_inside
  · rw [if_pos hin]
    cases hr : runLoop { tp with xPOI := some x, yPOI := some y } x y evs x y
        tp.CurrentPointArray with
    | done arr =>
      refine ⟨fun t st h => ?_, fun st h => ?_, fun st h => ?_⟩
      · injection h with h1 h2
        rw [← h2]
        exact ⟨rfl, rfl, rfl, rfl⟩
      · exact PoiResult.noConfusion h
      · exact PoiResult.noConfusion h
    | interrupted =>
      refine ⟨fun t st h => ?_, fun st h => ?_, fun st h => ?_⟩
      · exact PoiResult.noConfusion h
      · injection h with h2
        rw [← h2]
        exact ⟨rfl, rfl, rfl, rfl⟩
      · exact PoiResult.noConfusion h
    | running =>
      exact ⟨fun t st h => PoiResult.noConfusion h,
        fun st h => PoiResult.noConfusion h,
        fun st h => PoiResult.noConfusion h⟩
  · rw [if_neg hin]
    refine ⟨fun t st h => PoiResult.noConfusion h,
      fun st h => PoiResult.noConfusion h, fun st h => ?_⟩
    injection h with h2
    rw [← h2]
    exact ⟨rfl, rfl, rfl⟩

/-- Witness for C7: the cancelled call at `(7, 3)` in the example domain
leaves the domain fields unchanged and the sample accumulator empty. -/
theorem get_poi_temp_frame_witness :
    ({ exampleProblem with xPOI := none, yPOI := none, CurrentPointArray := [] } : TemperatureProblem).xDim
      = exampleProblem.xDim
    ∧ ({ exampleProblem with xPOI := none, yPOI := none, CurrentPointArray := [] } : TemperatureProblem).yDim
      = exampleProblem.yDim
    ∧ ({ exampleProblem with xPOI := none, yPOI := none, CurrentPointArray := [] } : TemperatureProblem).borderTemps
      = exampleProblem.borderTemps
    ∧ ({ exampleProblem with xPOI := none, yPOI := none, CurrentPointArray := [] } : TemperatureProblem).CurrentPointArray
      = [] :=
  (get_poi_temp_frame exampleProblem 7 3 [WalkEvent.interrupt]).2.1
    { exampleProblem with xPOI := none, yPOI := none, CurrentPointArray := [] }
    (by
      rw [get_poi_temp_eq, if_pos ((poi_is_inside_some _ _ _).2
          (Or.inl ⟨by norm_num,
            by norm_num [exampleProblem, TemperatureProblem.init]⟩)),
        runLoop_interrupt _ 7 3 [] 7 3
          (by norm_num [exampleProblem, TemperatureProblem.init,
            DICE_ROLLS_PER_DOT])])

/-- Claim C8 refuted (code bug): the source's walk loop has no step ceiling
and no `NonConvergent` failure path at all.  In the 100 by 2 domain, from
`(50, 1)`, the alternating draws `0, 1/2, 0, 1/2, ...` bounce the walk
between `(50, 1)` and `(51, 1)`, never within epsilon of a wall, so for
EVERY `n` the call has consumed `2 n` steps and is still running — no sample
collected, no bound enforced, no error reported. -/
theorem walk_loop_has_no_step_ceiling (n : ℕ) :
    get_poi_temp wideProblem 50 1 (zigzag n) = .running := by
  rw [get_poi_temp_eq,
    if_pos ((poi_is_inside_some _ _ _).2 (Or.inl ⟨by norm_num,
      by norm_num [wideProblem, TemperatureProblem.init]⟩)),
    runLoop_poi_irrel]
  rw [show wideProblem.CurrentPointArray = [] from rfl]
  rw [zigzag_running n]

/-- Claim C9 refuted (code bug): `TemperatureProblem.__init__` performs no
validation whatsoever: constructing with negative width and an
edge-temperature list of length 3 succeeds and yields exactly that object —
no `InvalidDomain` failure exists in the source, contrary to the class's
documented four-wall rectangle contract. -/
theorem init_accepts_invalid_domain :
    (TemperatureProblem.init (-15) 10 [1, 2, 3]).xDim = -15
    ∧ (TemperatureProblem.init (-15) 10 [1, 2, 3]).borderTemps.length = 3
    ∧ (TemperatureProblem.init (-15) 10 [1, 2, 3]).borderTemps.length ≠ 4 :=
  ⟨rfl, rfl, by norm_num [TemperatureProblem.init]⟩

/-- Claim C10: for a query point with `x < 0` and `0 ≤ y ≤ height` in a
positive-width domain, `get_poi_temp` does not fail: the validation accepts
the point through its y-range disjunct, the step radius
`min(width - x, height - y, x, y)` is the negative value `x`, every
displacement step lands at an x-coordinate `x·(1 + cos θ) ≤ 0 ≤ ε` so the
wall test reports the left wall on the first step of every trial, and —
whatever the random draws — the call returns exactly the left wall's
configured temperature `edgeTemperatures[2]`. -/
theorem neg_x_query_estimates_left_wall (tp : TemperatureProblem) {x y : ℝ}
    (hw : 0 < tp.xDim) (hx : x < 0) (hy0 : 0 ≤ y) (hyh : y ≤ tp.yDim)
    (hfresh : tp.CurrentPointArray = []) (us : List ℝ)
    (hlen : DICE_ROLLS_PER_DOT ≤ us.length) :
    ({ tp with xPOI := some x, yPOI := some y } :
        TemperatureProblem).poi_is_inside
    ∧ stepRadius tp x y = x
    ∧ (∀ u, tp.point_is_next_to_wall (tp.get_circle_and_rnd_point x y u).1
        (tp.get_circle_and_rnd_point x y u).2 = some 2)
    ∧ get_poi_temp tp x y (us.map WalkEvent.rand)
      = .ok (tp.borderTemps.getD 2 0)
          { tp with xPOI := some x, yPOI := some y, CurrentPointArray := [] } :=
  ⟨(poi_is_inside_some tp x y).2 (Or.inr ⟨hy0, hyh⟩),
   stepRadius_of_neg_x tp hw hx hy0 hyh,
   fun u => step_from_neg_x_hits_left tp hw hx hy0 hyh u,
   get_poi_temp_neg_x tp hw hx hy0 hyh hfresh us hlen⟩

/-- Witness for C10: `(-1, 5)` in the 15 by 10 example domain with 1000 zero
draws. -/
theorem neg_x_query_estimates_left_wall_witness :
    ({ exampleProblem with xPOI := some (-1), yPOI := some 5 } :
        TemperatureProblem).poi_is_inside
    ∧ stepRadius exampleProblem (-1) 5 = -1
    ∧ (∀ u, exampleProblem.point_is_next_to_wall
        (exampleProblem.get_circle_and_rnd_point (-1) 5 u).1
        (exampleProblem.get_circle_and_rnd_point (-1) 5 u).2 = some 2)
    ∧ get_poi_temp exampleProblem (-1) 5
        ((List.replicate DICE_ROLLS_PER_DOT (0:ℝ)).map WalkEvent.rand)
      = .ok (exampleProblem.borderTemps.getD 2 0)
          { exampleProblem with xPOI := some (-1), yPOI := some 5, CurrentPointArray := [] } :=
  neg_x_query_estimates_left_wall exampleProblem
    (by norm_num [exampleProblem, TemperatureProblem.init]) (by norm_num)
    (by norm_num) (by norm_num [exampleProblem, TemperatureProblem.init])
    rfl (List.replicate DICE_ROLLS_PER_DOT 0) (by simp)
